import Mathlib

/-!
Shallow embedding of the recurring/accrued financial-obligation generator,
payment-plan expander, currency conversion and report aggregation of the
financial back-office API (Flask service).

Source files embedded:
  * `api/expenses.py`   — recurring expense CRUD and accrued-expense generation
  * `api/payments.py`   — payment generation from a project's payment plan
  * `utils/currency.py` — currency conversion with fallback rates
  * `api/reports.py`    — financial projection running balance

Monetary amounts are modelled as rationals (`ℚ`), standing for the Python
floats / SQL decimals; dates are modelled as `(year, month, day)` triples of
naturals with the lexicographic order used by `datetime.date` comparison.
-/

namespace ERP

/-- Gregorian calendar date, as `datetime.date`: a `(year, month, day)`
triple.  Python compares dates lexicographically on this triple. -/
structure Date where
  year : ℕ
  month : ℕ
  day : ℕ
deriving DecidableEq, Repr

/-- Strict comparison of dates, the semantics of `<` on `datetime.date`. -/
def Date.Lt (a b : Date) : Prop :=
  a.year < b.year ∨
    (a.year = b.year ∧
      (a.month < b.month ∨ (a.month = b.month ∧ a.day < b.day)))

/-- Non-strict comparison of dates, the semantics of `<=` on `datetime.date`. -/
def Date.Le (a b : Date) : Prop :=
  a.year < b.year ∨
    (a.year = b.year ∧
      (a.month < b.month ∨ (a.month = b.month ∧ a.day ≤ b.day)))

instance (a b : Date) : Decidable (Date.Lt a b) := by
  unfold Date.Lt; infer_instance

instance (a b : Date) : Decidable (Date.Le a b) := by
  unfold Date.Le; infer_instance

/-- `calendar`-style leap-year test. -/
def isLeapYear (y : ℕ) : Bool :=
  (y % 4 == 0 && y % 100 != 0) || (y % 400 == 0)

/-- Number of days in a month (`calendar.monthrange(y, m)[1]`). -/
def daysInMonth (y m : ℕ) : ℕ :=
  if m = 2 then (if isLeapYear y then 29 else 28)
  else if m = 4 ∨ m = 6 ∨ m = 9 ∨ m = 11 then 30
  else 31

/-- `d + relativedelta(months=n)` for `n ≥ 0`: add `n` calendar months,
clamping the day to the length of the target month. -/
def Date.addMonths (d : Date) (n : ℕ) : Date :=
  let t := d.month - 1 + n
  let y := d.year + t / 12
  let m := t % 12 + 1
  { year := y, month := m, day := min d.day (daysInMonth y m) }

/-- The day after `d` in the Gregorian calendar. -/
def Date.nextDay (d : Date) : Date :=
  if d.day < daysInMonth d.year d.month then
    { d with day := d.day + 1 }
  else if d.month < 12 then
    { year := d.year, month := d.month + 1, day := 1 }
  else
    { year := d.year + 1, month := 1, day := 1 }

/-- `d + timedelta(days=n)` for `n ≥ 0`. -/
def Date.addDays : Date → ℕ → Date
  | d, 0 => d
  | d, n + 1 => d.nextDay.addDays n

/-- `d.replace(day = day)` (`datetime.date.replace`). -/
def Date.replaceDay (d : Date) (day : ℕ) : Date :=
  { d with day := day }

/-- The two supported currencies (`models/expense.py`, `Currency`). -/
inductive Currency
  | COP
  | USD
deriving DecidableEq, Repr

namespace Expenses

/-- Recurrence frequencies (`models/expense.py`, `FrequencyType`). -/
inductive FrequencyType
  | DIARIA
  | SEMANAL
  | QUINCENAL
  | MENSUAL
  | BIMENSUAL
  | TRIMESTRAL
  | SEMESTRAL
  | ANUAL
deriving DecidableEq, Repr

/-- Status of a recurring expense (`models/expense.py`). -/
inductive RecurringExpenseStatus
  | ACTIVO
  | PAUSADO
deriving DecidableEq, Repr

/-- Status of an accrued expense (`models/expense.py`). -/
inductive AccruedExpenseStatus
  | PAGADO
  | PENDIENTE
  | VENCIDO
deriving DecidableEq, Repr

/-- A `RecurringExpense` row (`models/expense.py`).  `next_payment` is the
generation cursor. -/
structure RecurringExpense where
  id : ℕ
  description : String
  frequency : FrequencyType
  start_date : Date
  amount : ℚ
  currency : Currency
  category : String
  payment_method : String
  status : RecurringExpenseStatus
  next_payment : Date
  notes : Option String
deriving DecidableEq, Repr

/-- An `AccruedExpense` row (`models/expense.py`). -/
structure AccruedExpense where
  description : String
  due_date : Date
  amount : ℚ
  currency : Currency
  category : String
  payment_method : String
  status : AccruedExpenseStatus
  is_recurring : Bool
  recurring_id : Option ℕ
  notes : Option String
deriving DecidableEq, Repr

/-- A frequency step: a fixed number of days or of calendar months
(the `frequency_map` dict in `GenerateAccruedExpenses.post`). -/
inductive FreqStep
  | days (n : ℕ)
  | months (n : ℕ)
deriving DecidableEq, Repr

/-- `frequency_map` from `GenerateAccruedExpenses.post`.  The map is total on
the enum, so the Python `dict.get` default `{'months': 1}` is unreachable. -/
def frequency_map : FrequencyType → FreqStep
  | .DIARIA => .days 1
  | .SEMANAL => .days 7
  | .QUINCENAL => .days 15
  | .MENSUAL => .months 1
  | .BIMENSUAL => .months 2
  | .TRIMESTRAL => .months 3
  | .SEMESTRAL => .months 6
  | .ANUAL => .months 12

/-- Advance a date by one frequency step (the `timedelta` / `relativedelta`
update at the bottom of the generation loop). -/
def stepDate (f : FreqStep) (d : Date) : Date :=
  match f with
  | .days n => d.addDays n
  | .months n => d.addMonths n

/-- The accrued expense created from a recurring expense at a given due
date (the `AccruedExpense(...)` constructor call in the generation loop). -/
def mkAccrued (re : RecurringExpense) (due : Date) : AccruedExpense :=
  { description := re.description
    due_date := due
    amount := re.amount
    currency := re.currency
    category := re.category
    payment_method := re.payment_method
    status := .PENDIENTE
    is_recurring := true
    recurring_id := some re.id
    notes := re.notes }

/-- The `for i in range(months)` loop of `GenerateAccruedExpenses.post`.
`fuel` is the number of remaining iterations, `i` the Python loop index and
`cur` the running `current_date`.  Returns the generated instances in order
together with `next_payment_date` (which the Python code assigns only when
the iteration with `i == 0` creates an instance: a `current_date` in the
past advances the cursor and `continue`s, consuming the iteration). -/
def generateLoop (re : RecurringExpense) (freq : FreqStep) (today : Date) :
    ℕ → ℕ → Date → List AccruedExpense × Option Date
  | 0, _, _ => ([], none)
  | fuel + 1, i, cur =>
    if Date.Lt cur today then
      generateLoop re freq today fuel (i + 1) (stepDate freq cur)
    else
      let rest := generateLoop re freq today fuel (i + 1) (stepDate freq cur)
      (mkAccrued re cur :: rest.1,
        if i = 0 then some cur else rest.2)

/-- Result of the generate endpoint: HTTP status, the generated instances
and the (possibly updated) recurring expense row. -/
structure GenerateResult where
  httpStatus : ℕ
  instances : List AccruedExpense
  obligation : RecurringExpense
deriving DecidableEq, Repr

/-- `POST /expenses/recurring/<id>/generate` (`GenerateAccruedExpenses.post`):
refuses inactive templates with a 400 and no changes; otherwise runs the
generation loop from the cursor and reassigns `next_payment` only when the
loop produced a `next_payment_date` (dates are truthy; `None` is falsy). -/
def generate (re : RecurringExpense) (months : ℕ) (today : Date) :
    GenerateResult :=
  if re.status ≠ RecurringExpenseStatus.ACTIVO then
    { httpStatus := 400, instances := [], obligation := re }
  else
    let r := generateLoop re (frequency_map re.frequency) today months 0
      re.next_payment
    { httpStatus := 201
      instances := r.1
      obligation := { re with next_payment := r.2.getD re.next_payment } }

/-- Payload of `POST /expenses/recurring` (`RecurringExpenseList.post`).
The fields marked `required=True` by `RecurringExpenseSchema` are plain,
the optional ones are `Option`s. -/
structure RecurringExpenseCreate where
  description : String
  frequency : FrequencyType
  start_date : Date
  amount : ℚ
  currency : Currency
  category : String
  payment_method : String
  status : Option RecurringExpenseStatus
  notes : Option String
deriving DecidableEq, Repr

/-- `RecurringExpenseList.post`: the handler copies `start_date` into
`next_payment` before loading; the schema rejects a non-positive amount,
a start date in the past and an over-long description; the status column
defaults to `ACTIVO`. -/
def createRecurringExpense (today : Date) (d : RecurringExpenseCreate)
    (id : ℕ) : Option RecurringExpense :=
  if d.amount ≤ 0 then none
  else if Date.Lt d.start_date today then none
  else if d.description.length < 1 ∨ 255 < d.description.length then none
  else some
    { id := id
      description := d.description
      frequency := d.frequency
      start_date := d.start_date
      amount := d.amount
      currency := d.currency
      category := d.category
      payment_method := d.payment_method
      status := d.status.getD .ACTIVO
      next_payment := d.start_date
      notes := d.notes }

/-- JSON body of `PUT /expenses/recurring/<id>`
(`RecurringExpenseDetail.put`): the handler walks the supplied keys and
`setattr`s every one that is an attribute of the model, with no
validation, so every column — `next_payment` and `start_date` included —
is client-writable. -/
structure RecurringExpenseUpdate where
  description : Option String
  frequency : Option FrequencyType
  start_date : Option Date
  amount : Option ℚ
  currency : Option Currency
  category : Option String
  payment_method : Option String
  status : Option RecurringExpenseStatus
  next_payment : Option Date
  notes : Option (Option String)
deriving DecidableEq, Repr

/-- A single `setattr` step: keep the current value when the key is absent
from the request body. -/
def applyField {α : Type} (cur : α) : Option α → α
  | none => cur
  | some v => v

/-- `RecurringExpenseDetail.put`: apply every supplied attribute. -/
def updateRecurringExpense (re : RecurringExpense)
    (u : RecurringExpenseUpdate) : RecurringExpense :=
  { id := re.id
    description := applyField re.description u.description
    frequency := applyField re.frequency u.frequency
    start_date := applyField re.start_date u.start_date
    amount := applyField re.amount u.amount
    currency := applyField re.currency u.currency
    category := applyField re.category u.category
    payment_method := applyField re.payment_method u.payment_method
    status := applyField re.status u.status
    next_payment := applyField re.next_payment u.next_payment
    notes := applyField re.notes u.notes }

/-- `status == PENDIENTE and due_date < today`: the filter of
`OverdueAccruedExpenses.get`. -/
def isOverduePending (today : Date) (e : AccruedExpense) : Bool :=
  decide (Date.Lt e.due_date today) &&
    decide (e.status = AccruedExpenseStatus.PENDIENTE)

/-- The status mutation applied to each selected row
(`expense.status = AccruedExpenseStatus.VENCIDO`). -/
def markVencido (e : AccruedExpense) : AccruedExpense :=
  { e with status := .VENCIDO }

/-- Every column of an accrued expense other than `status`. -/
def fieldsExceptStatus (e : AccruedExpense) :
    String × Date × ℚ × Currency × String × String × Bool × Option ℕ ×
      Option String :=
  (e.description, e.due_date, e.amount, e.currency, e.category,
    e.payment_method, e.is_recurring, e.recurring_id, e.notes)

/-- `GET /expenses/accrued/overdue` (`OverdueAccruedExpenses.get`) acting on
the table contents: select the pending rows whose due date is strictly past,
ordered by due date; set their status to `VENCIDO`; commit; dump the
selected rows (after the mutation).  Returns (new table, response list). -/
def overdueAccruedExpenses (database : List AccruedExpense) (today : Date) :
    List AccruedExpense × List AccruedExpense :=
  let selected := List.insertionSort
    (fun a b => Date.Le a.due_date b.due_date)
    (database.filter (isOverduePending today))
  let newDb := database.map
    (fun e => if isOverduePending today e then markVencido e else e)
  (newDb, selected.map markVencido)

end Expenses

/-- Python `round(x, 2)` idealised over the rationals: round half to even
at two decimal places. -/
def roundHalfEven (q : ℚ) : ℤ :=
  if q - ⌊q⌋ = 1 / 2 then (if ⌊q⌋ % 2 = 0 then ⌊q⌋ else ⌊q⌋ + 1)
  else ⌊q + 1 / 2⌋

/-- `round(q, 2)`. -/
def round2 (q : ℚ) : ℚ :=
  (roundHalfEven (q * 100) : ℚ) / 100

/-- Python truthiness of a nullable numeric column: `None` and `0` are
falsy. -/
def truthyQ : Option ℚ → Bool
  | none => false
  | some q => decide (q ≠ 0)

/-- Python truthiness of a nullable integer column. -/
def truthyNat : Option ℕ → Bool
  | none => false
  | some n => decide (n ≠ 0)

/-- Python `x or d` on a nullable integer. -/
def pyOrNat : Option ℕ → ℕ → ℕ
  | none, d => d
  | some n, d => if n = 0 then d else n

/-- Python `int(q)` for the non-negative rationals arising here
(truncation towards zero coincides with the floor). -/
def intFloor (q : ℚ) : ℕ :=
  (⌊q⌋).toNat

namespace Projects

/-- `models/project.py`, `PaymentPlanType`. -/
inductive PaymentPlanType
  | FEE_UNICO
  | FEE_POR_CUOTAS
  | SUSCRIPCION_PERIODICA
  | MIXTO
deriving DecidableEq, Repr

/-- `models/project.py`, `FrequencyType` (no daily member). -/
inductive FrequencyType
  | SEMANAL
  | QUINCENAL
  | MENSUAL
  | BIMENSUAL
  | TRIMESTRAL
  | SEMESTRAL
  | ANUAL
deriving DecidableEq, Repr

/-- A `PaymentPlan` row (`models/project.py`); every fee column is
nullable. -/
structure PaymentPlan where
  type : PaymentPlanType
  implementation_fee_total : Option ℚ
  implementation_fee_currency : Option Currency
  implementation_fee_installments : Option ℕ
  recurring_fee_amount : Option ℚ
  recurring_fee_currency : Option Currency
  recurring_fee_frequency : Option FrequencyType
  recurring_fee_day_of_charge : Option ℕ
  recurring_fee_grace_periods : Option ℕ
  recurring_fee_discount_periods : Option ℕ
  recurring_fee_discount_percentage : Option ℚ
deriving DecidableEq, Repr

/-- The fields of a `Project` row used by payment generation. -/
structure Project where
  id : ℕ
  client_id : ℕ
  start_date : Date
  payment_plan : Option PaymentPlan
deriving DecidableEq, Repr

end Projects

namespace Payments

open Projects

/-- `models/payment.py`, `PaymentStatus`. -/
inductive PaymentStatus
  | PAGADO
  | PENDIENTE
  | VENCIDO
deriving DecidableEq, Repr

/-- `models/payment.py`, `PaymentType`. -/
inductive PaymentType
  | IMPLEMENTACION
  | RECURRENTE
deriving DecidableEq, Repr

/-- A `Payment` row as built by `GeneratePayments.post`.  The `currency`
column is NOT NULL in the schema but the handler may pass `None` through
from the plan, which only fails later, at commit. -/
structure Payment where
  project_id : ℕ
  client_id : ℕ
  amount : ℚ
  currency : Option Currency
  date : Date
  status : PaymentStatus
  type : PaymentType
  installment_number : ℕ
deriving DecidableEq, Repr

/-- The `frequency_months` dict of `GeneratePayments.post`: interval in
(possibly fractional) months.  Total on the enum, so the `dict.get`
default `1` is unreachable. -/
def frequency_months : FrequencyType → ℚ
  | .SEMANAL => 1 / 4
  | .QUINCENAL => 1 / 2
  | .MENSUAL => 1
  | .BIMENSUAL => 2
  | .TRIMESTRAL => 3
  | .SEMESTRAL => 6
  | .ANUAL => 12

/-- The implementation-fee block of `GeneratePayments.post`: runs when the
plan type includes an implementation fee and `implementation_fee_total`
is truthy; `installments = max(1, installments or 1)`, each payment is
`round(total / installments, 2)`, dated `start_date + i` months. -/
def implementationLeg (project : Project) (plan : PaymentPlan) :
    List Payment :=
  if (plan.type = .FEE_UNICO ∨ plan.type = .FEE_POR_CUOTAS ∨
        plan.type = .MIXTO) ∧ truthyQ plan.implementation_fee_total then
    let installments := max 1 (pyOrNat plan.implementation_fee_installments 1)
    let amount_per_installment :=
      plan.implementation_fee_total.getD 0 / (installments : ℚ)
    (List.range installments).map (fun i =>
      { project_id := project.id
        client_id := project.client_id
        amount := round2 amount_per_installment
        currency := plan.implementation_fee_currency
        date := project.start_date.addMonths i
        status := .PENDIENTE
        type := .IMPLEMENTACION
        installment_number := i + 1 })
  else []

/-- The `interval` local of the recurring-fee block:
`frequency_months.get(plan.recurring_fee_frequency, 1)`. -/
def recurringInterval (plan : PaymentPlan) : ℚ :=
  match plan.recurring_fee_frequency with
  | some f => frequency_months f
  | none => 1

/-- The `start_date` local of the recurring-fee block: the project start,
shifted by `int(grace_periods * interval)` months when the grace count is
truthy, then with the charge day replaced by `min(day, 28)` when the
configured day is truthy. -/
def recurringStart (project : Project) (plan : PaymentPlan) : Date :=
  let interval := recurringInterval plan
  let start1 := if truthyNat plan.recurring_fee_grace_periods then
      project.start_date.addMonths
        (intFloor ((plan.recurring_fee_grace_periods.getD 0 : ℚ) * interval))
    else project.start_date
  if truthyNat plan.recurring_fee_day_of_charge then
    start1.replaceDay (min (plan.recurring_fee_day_of_charge.getD 0) 28)
  else start1

/-- The amount of the `i`-th recurring payment before rounding:
`recurring_fee_amount`, discounted while `i < discount_periods` (the
Python guard also checks the truthiness of `discount_periods`). -/
def recurringAmount (plan : PaymentPlan) (i : ℕ) : ℚ :=
  let base := plan.recurring_fee_amount.getD 0
  if truthyNat plan.recurring_fee_discount_periods ∧
      i < plan.recurring_fee_discount_periods.getD 0 then
    base * (1 - plan.recurring_fee_discount_percentage.getD 0 / 100)
  else base

/-- The recurring-fee block of `GeneratePayments.post`: runs when the plan
type includes a subscription and both `recurring_fee_amount` and
`recurring_fee_frequency` are truthy; `int(months / interval)` payments
are produced, payment `i` dated `start + int(i * interval)` months. -/
def recurringLeg (project : Project) (plan : PaymentPlan) (months : ℕ) :
    List Payment :=
  if (plan.type = .SUSCRIPCION_PERIODICA ∨ plan.type = .MIXTO) ∧
      truthyQ plan.recurring_fee_amount ∧
      plan.recurring_fee_frequency.isSome then
    let interval := recurringInterval plan
    let num_payments := intFloor ((months : ℚ) / interval)
    (List.range num_payments).map (fun i =>
      { project_id := project.id
        client_id := project.client_id
        amount := round2 (recurringAmount plan i)
        currency := plan.recurring_fee_currency
        date := (recurringStart project plan).addMonths
          (intFloor ((i : ℚ) * interval))
        status := .PENDIENTE
        type := .RECURRENTE
        installment_number := i + 1 })
  else []

/-- Result of `POST /payments/generate`. -/
structure GeneratePaymentsResult where
  httpStatus : ℕ
  payments : List Payment
deriving DecidableEq, Repr

/-- `GeneratePayments.post` on a found project: 400 when the project has no
payment plan; otherwise both legs are generated and committed.  The
`payments.currency` column is NOT NULL, so a payment carrying a `None`
currency makes the commit raise — the handler's `except` branch rolls the
session back and returns 400 with nothing persisted. -/
def generatePayments (project : Project) (months : ℕ) :
    GeneratePaymentsResult :=
  match project.payment_plan with
  | none => { httpStatus := 400, payments := [] }
  | some plan =>
    let ps := implementationLeg project plan ++ recurringLeg project plan months
    if ps.any (fun p => p.currency.isNone) then
      { httpStatus := 400, payments := [] }
    else
      { httpStatus := 201, payments := ps }

end Payments

namespace Currencies

/-- The `fallback_rates` dict of `utils/currency.py`
(`'USD-COP': 4000.0`, `'COP-USD': 0.00025`), as a lookup. -/
def fallback_rates (base target : String) : Option ℚ :=
  if base = "USD" ∧ target = "COP" then some 4000
  else if base = "COP" ∧ target = "USD" then some (1 / 4000)
  else none

/-- `get_exchange_rate` of `utils/currency.py`.  `apiRate` abstracts the
external ExchangeRate-API call: `some r` when the call succeeds with
conversion rate `r`, `none` when there is no API key, the call fails, or
the response carries no rate — every failure path falls back to
`fallback_rates` with default `1.0`, never raising. -/
def get_exchange_rate (apiRate : String → String → Option ℚ)
    (base_currency target_currency : String) : ℚ :=
  if base_currency = target_currency then 1
  else
    match apiRate base_currency target_currency with
    | some r => r
    | none => (fallback_rates base_currency target_currency).getD 1

/-- `convert_currency` of `utils/currency.py`. -/
def convert_currency (apiRate : String → String → Option ℚ) (amount : ℚ)
    (from_currency to_currency : String) : ℚ :=
  if from_currency = to_currency then amount
  else amount * get_exchange_rate apiRate from_currency to_currency

end Currencies

namespace Reports

/-- One month bucket of the financial projection, reduced to its label
(`strftime('%Y-%m')`, whose lexicographic string order is the
chronological order) and its net value in the target currency. -/
structure MonthBucket where
  month : String
  net : ℚ
deriving DecidableEq, Repr

/-- Lexicographic comparison of character lists: the order Python's string
`<=` uses on the label strings. -/
def charListLe : List Char → List Char → Bool
  | [], _ => true
  | _ :: _, [] => false
  | c :: cs, d :: ds =>
    if c = d then charListLe cs ds else decide (c.toNat < d.toNat)

/-- Python string comparison, applied to the month labels. -/
def stringLe (a b : String) : Bool :=
  charListLe a.data b.data

/-- `sorted(projection.keys())`: the buckets in ascending label order. -/
def sortBuckets (l : List MonthBucket) : List MonthBucket :=
  List.insertionSort (fun a b => stringLe a.month b.month = true) l

/-- The formatting loop of `FinancialProjectionReport.get`: walk the
buckets in sorted label order carrying `running_balance`, snapshot the
balance into each emitted row.  Returns the final `running_balance`
(reported as `final_balance` in the summary) and `projection_data`, each
row paired with its `running_balance` snapshot. -/
def projectionFold (l : List MonthBucket) :
    ℚ × List (MonthBucket × ℚ) :=
  (sortBuckets l).foldl
    (fun st b => (st.1 + b.net, st.2 ++ [(b, st.1 + b.net)]))
    (0, [])

/-- The `projection_data` list of the response. -/
def projection_data (l : List MonthBucket) : List (MonthBucket × ℚ) :=
  (projectionFold l).2

/-- The `final_balance` field of the response summary. -/
def final_balance (l : List MonthBucket) : ℚ :=
  (projectionFold l).1

end Reports

namespace Samples

open Expenses Projects Payments

/-- "Today" for the concrete scenarios of the spec: 2024-01-15. -/
def scenarioToday : Date := ⟨2024, 1, 15⟩

/-- An active monthly obligation whose cursor (`next_payment`) lies two
years in the past relative to `scenarioToday`. -/
def pastCursorObligation : RecurringExpense :=
  { id := 1
    description := "Hosting"
    frequency := .MENSUAL
    start_date := ⟨2022, 1, 15⟩
    amount := 100
    currency := .USD
    category := "Ops"
    payment_method := "Card"
    status := .ACTIVO
    next_payment := ⟨2022, 1, 15⟩
    notes := none }

/-- The end-to-end scenario obligation of the spec: monthly, 100 USD,
cursor 2024-01-01. -/
def e2eObligation : RecurringExpense :=
  { id := 2
    description := "Subscription"
    frequency := .MENSUAL
    start_date := ⟨2024, 1, 1⟩
    amount := 100
    currency := .USD
    category := "Software"
    payment_method := "Card"
    status := .ACTIVO
    next_payment := ⟨2024, 1, 1⟩
    notes := none }

/-- An active monthly obligation whose cursor is in the future. -/
def futureCursorObligation : RecurringExpense :=
  { id := 3
    description := "Rent"
    frequency := .MENSUAL
    start_date := ⟨2024, 2, 1⟩
    amount := 1500
    currency := .COP
    category := "Office"
    payment_method := "Transfer"
    status := .ACTIVO
    next_payment := ⟨2024, 2, 1⟩
    notes := none }

/-- A paused obligation. -/
def pausedObligation : RecurringExpense :=
  { id := 4
    description := "Paused item"
    frequency := .MENSUAL
    start_date := ⟨2024, 1, 1⟩
    amount := 50
    currency := .USD
    category := "Misc"
    payment_method := "Card"
    status := .PAUSADO
    next_payment := ⟨2024, 1, 1⟩
    notes := none }

/-- A valid creation payload. -/
def sampleCreate : RecurringExpenseCreate :=
  { description := "Insurance"
    frequency := .ANUAL
    start_date := ⟨2024, 3, 1⟩
    amount := 250
    currency := .USD
    category := "Ops"
    payment_method := "Card"
    status := none
    notes := none }

/-- The row produced by `createRecurringExpense scenarioToday sampleCreate 9`. -/
def createdObligation : RecurringExpense :=
  { id := 9
    description := "Insurance"
    frequency := .ANUAL
    start_date := ⟨2024, 3, 1⟩
    amount := 250
    currency := .USD
    category := "Ops"
    payment_method := "Card"
    status := .ACTIVO
    next_payment := ⟨2024, 3, 1⟩
    notes := none }

/-- A PUT body that moves `next_payment` one year before `start_date`. -/
def cursorRegressionUpdate : RecurringExpenseUpdate :=
  { description := none
    frequency := none
    start_date := none
    amount := none
    currency := none
    category := none
    payment_method := none
    status := none
    next_payment := some ⟨2023, 1, 1⟩
    notes := none }

/-- A fee-in-installments plan: total 1200, 3 installments. -/
def installmentsPlan : PaymentPlan :=
  { type := .FEE_POR_CUOTAS
    implementation_fee_total := some 1200
    implementation_fee_currency := some .USD
    implementation_fee_installments := some 3
    recurring_fee_amount := none
    recurring_fee_currency := none
    recurring_fee_frequency := none
    recurring_fee_day_of_charge := none
    recurring_fee_grace_periods := none
    recurring_fee_discount_periods := none
    recurring_fee_discount_percentage := none }

/-- The project carrying `installmentsPlan`, starting 2024-01-10. -/
def installmentsProject : Project :=
  { id := 7
    client_id := 9
    start_date := ⟨2024, 1, 10⟩
    payment_plan := some installmentsPlan }

/-- A one-time-fee plan: total 1200 in a single installment. -/
def oneTimePlan : PaymentPlan :=
  { type := .FEE_UNICO
    implementation_fee_total := some 1200
    implementation_fee_currency := some .USD
    implementation_fee_installments := some 1
    recurring_fee_amount := none
    recurring_fee_currency := none
    recurring_fee_frequency := none
    recurring_fee_day_of_charge := none
    recurring_fee_grace_periods := none
    recurring_fee_discount_periods := none
    recurring_fee_discount_percentage := none }

/-- The project carrying `oneTimePlan`. -/
def oneTimeProject : Project :=
  { id := 8
    client_id := 9
    start_date := ⟨2024, 1, 10⟩
    payment_plan := some oneTimePlan }

/-- A fee-in-installments plan with `implementation_fee_total` missing. -/
def missingTotalPlan : PaymentPlan :=
  { type := .FEE_POR_CUOTAS
    implementation_fee_total := none
    implementation_fee_currency := none
    implementation_fee_installments := some 3
    recurring_fee_amount := none
    recurring_fee_currency := none
    recurring_fee_frequency := none
    recurring_fee_day_of_charge := none
    recurring_fee_grace_periods := none
    recurring_fee_discount_periods := none
    recurring_fee_discount_percentage := none }

/-- The project carrying `missingTotalPlan`. -/
def missingTotalProject : Project :=
  { id := 10
    client_id := 11
    start_date := ⟨2024, 1, 10⟩
    payment_plan := some missingTotalPlan }

/-- A monthly subscription plan: fee 500, two discounted periods at 10%. -/
def subscriptionPlan : PaymentPlan :=
  { type := .SUSCRIPCION_PERIODICA
    implementation_fee_total := none
    implementation_fee_currency := none
    implementation_fee_installments := none
    recurring_fee_amount := some 500
    recurring_fee_currency := some .USD
    recurring_fee_frequency := some .MENSUAL
    recurring_fee_day_of_charge := some 15
    recurring_fee_grace_periods := none
    recurring_fee_discount_periods := some 2
    recurring_fee_discount_percentage := some 10 }

/-- The project carrying `subscriptionPlan`. -/
def subscriptionProject : Project :=
  { id := 12
    client_id := 13
    start_date := ⟨2024, 1, 3⟩
    payment_plan := some subscriptionPlan }

/-- A small table of accrued expenses: one pending and past-due, one
pending and future, one already paid. -/
def overdueDb : List AccruedExpense :=
  [{ description := "Internet"
     due_date := ⟨2024, 1, 1⟩
     amount := 80
     currency := .USD
     category := "Ops"
     payment_method := "Card"
     status := .PENDIENTE
     is_recurring := false
     recurring_id := none
     notes := none },
   { description := "Rent"
     due_date := ⟨2024, 2, 1⟩
     amount := 1500
     currency := .COP
     category := "Office"
     payment_method := "Transfer"
     status := .PENDIENTE
     is_recurring := false
     recurring_id := none
     notes := none },
   { description := "Old receipt"
     due_date := ⟨2023, 12, 1⟩
     amount := 20
     currency := .USD
     category := "Ops"
     payment_method := "Card"
     status := .PAGADO
     is_recurring := false
     recurring_id := none
     notes := none }]

/-- Two projection buckets given out of chronological order. -/
def sampleBuckets : List Reports.MonthBucket :=
  [⟨"2024-02", 10⟩, ⟨"2024-01", 5⟩]

end Samples

/-! ### Date-order helper lemmas -/

theorem Date.le_refl (d : Date) : d.Le d := by
  unfold Date.Le; omega

theorem Date.le_trans {a b c : Date} (hab : a.Le b) (hbc : b.Le c) :
    a.Le c := by
  unfold Date.Le at *; omega

theorem Date.not_lt_mono {t a b : Date} (h : ¬ Date.Lt a t) (hab : a.Le b) :
    ¬ Date.Lt b t := by
  unfold Date.Le at hab; unfold Date.Lt at *; omega

theorem Date.le_addMonths (d : Date) (n : ℕ) (hn : 1 ≤ n) :
    d.Le (d.addMonths n) := by
  unfold Date.addMonths Date.Le; simp only []; omega

theorem Date.le_nextDay (d : Date) : d.Le d.nextDay := by
  unfold Date.nextDay
  split
  · unfold Date.Le; simp
  · split <;> (unfold Date.Le; simp)

theorem Date.le_addDays : ∀ (n : ℕ) (d : Date), d.Le (d.addDays n)
  | 0, d => Date.le_refl d
  | n + 1, d =>
    Date.le_trans (Date.le_nextDay d) (Date.le_addDays n d.nextDay)

namespace Expenses

/-- Every step produced by `frequency_map` moves a date forward (the month
steps are all at least one month, the day steps at least one day). -/
theorem le_stepDate (ft : FrequencyType) (d : Date) :
    d.Le (stepDate (frequency_map ft) d) := by
  cases ft <;>
    first
      | exact Date.le_addDays _ d
      | exact Date.le_addMonths d _ (by omega)

/-! ### Generation-loop helper lemmas -/

theorem generateLoop_snd_pos (re : RecurringExpense) (freq : FreqStep)
    (today : Date) :
    ∀ (fuel i : ℕ) (cur : Date), 1 ≤ i →
      (generateLoop re freq today fuel i cur).2 = none := by
  intro fuel
  induction fuel with
  | zero => intro i cur _; rfl
  | succ k ih =>
    intro i cur hi
    simp only [generateLoop]
    split
    · exact ih (i + 1) _ (by omega)
    · simp only []
      rw [if_neg (by omega), ih (i + 1) _ (by omega)]

theorem generateLoop_snd_zero (re : RecurringExpense) (freq : FreqStep)
    (today : Date) (months : ℕ) (cur : Date) :
    (generateLoop re freq today months 0 cur).2 = none ∨
      (generateLoop re freq today months 0 cur).2 = some cur := by
  cases months with
  | zero => left; rfl
  | succ k =>
    simp only [generateLoop]
    split
    · left; exact generateLoop_snd_pos re freq today k 1 _ (by omega)
    · right; simp

theorem generateLoop_length_le (re : RecurringExpense) (freq : FreqStep)
    (today : Date) :
    ∀ (fuel i : ℕ) (cur : Date),
      (generateLoop re freq today fuel i cur).1.length ≤ fuel := by
  intro fuel
  induction fuel with
  | zero => intro i cur; simp [generateLoop]
  | succ k ih =>
    intro i cur
    simp only [generateLoop]
    split
    · exact le_trans (ih (i + 1) _) (by omega)
    · simpa using ih (i + 1) (stepDate freq cur)

theorem generateLoop_mem_not_past (re : RecurringExpense) (freq : FreqStep)
    (today : Date) :
    ∀ (fuel i : ℕ) (cur : Date),
      ∀ e ∈ (generateLoop re freq today fuel i cur).1,
        ¬ Date.Lt e.due_date today := by
  intro fuel
  induction fuel with
  | zero => intro i cur e he; simp [generateLoop] at he
  | succ k ih =>
    intro i cur e he
    simp only [generateLoop] at he
    split at he
    · exact ih (i + 1) _ e he
    · rename_i hnot
      simp only [List.mem_cons] at he
      rcases he with rfl | he
      · exact hnot
      · exact ih (i + 1) _ e he

theorem generateLoop_length_eq (re : RecurringExpense) (freq : FreqStep)
    (today : Date) (hstep : ∀ c : Date, c.Le (stepDate freq c)) :
    ∀ (fuel i : ℕ) (cur : Date), ¬ Date.Lt cur today →
      (generateLoop re freq today fuel i cur).1.length = fuel := by
  intro fuel
  induction fuel with
  | zero => intro i cur _; rfl
  | succ k ih =>
    intro i cur hcur
    simp only [generateLoop]
    rw [if_neg hcur]
    simp only [List.length_cons]
    rw [ih (i + 1) (stepDate freq cur)
      (Date.not_lt_mono hcur (hstep cur))]

/-- The endpoint never moves the cursor: `next_payment_date` is assigned
only when the iteration with `i == 0` creates an instance, and in that
case it equals the starting cursor. -/
theorem generate_next_payment_eq (re : RecurringExpense) (months : ℕ)
    (today : Date) :
    (generate re months today).obligation.next_payment = re.next_payment := by
  unfold generate
  split
  · rfl
  · rcases generateLoop_snd_zero re (frequency_map re.frequency) today months
      re.next_payment with h | h <;> simp [h]

theorem generate_start_date_eq (re : RecurringExpense) (months : ℕ)
    (today : Date) :
    (generate re months today).obligation.start_date = re.start_date := by
  unfold generate
  split <;> rfl

theorem generate_instances_eq (re : RecurringExpense) (months : ℕ)
    (today : Date) (h : re.status = .ACTIVO) :
    (generate re months today).instances =
      (generateLoop re (frequency_map re.frequency) today months 0
        re.next_payment).1 := by
  unfold generate
  rw [if_neg (by simp [h])]

theorem generate_not_active (re : RecurringExpense) (months : ℕ)
    (today : Date) (h : re.status ≠ RecurringExpenseStatus.ACTIVO) :
    generate re months today =
      { httpStatus := 400, instances := [], obligation := re } := by
  unfold generate
  rw [if_pos h]

end Expenses

namespace Payments

/-! ### Payment-generation helper lemmas -/

theorem generatePayments_of_plan (project : Projects.Project)
    (plan : Projects.PaymentPlan) (months : ℕ)
    (hplan : project.payment_plan = some plan)
    (hcur : (implementationLeg project plan ++
        recurringLeg project plan months).any
          (fun p => p.currency.isNone) = false) :
    generatePayments project months =
      { httpStatus := 201
        payments := implementationLeg project plan ++
          recurringLeg project plan months } := by
  unfold generatePayments
  rw [hplan]
  simp only [hcur, Bool.false_eq_true, if_false]

theorem generatePayments_of_plan_fail (project : Projects.Project)
    (plan : Projects.PaymentPlan) (months : ℕ)
    (hplan : project.payment_plan = some plan)
    (hcur : (implementationLeg project plan ++
        recurringLeg project plan months).any
          (fun p => p.currency.isNone) = true) :
    generatePayments project months =
      { httpStatus := 400, payments := [] } := by
  unfold generatePayments
  rw [hplan]
  simp only [hcur, if_true]

theorem implementationLeg_type (project : Projects.Project)
    (plan : Projects.PaymentPlan) :
    ∀ p ∈ implementationLeg project plan,
      p.type = PaymentType.IMPLEMENTACION := by
  intro p hp
  unfold implementationLeg at hp
  split at hp
  · simp only [List.mem_map] at hp
    rcases hp with ⟨i, -, rfl⟩
    rfl
  · cases hp

theorem recurringLeg_type (project : Projects.Project)
    (plan : Projects.PaymentPlan) (months : ℕ) :
    ∀ p ∈ recurringLeg project plan months,
      p.type = PaymentType.RECURRENTE := by
  intro p hp
  unfold recurringLeg at hp
  split at hp
  · simp only [List.mem_map] at hp
    rcases hp with ⟨i, -, rfl⟩
    rfl
  · cases hp

theorem implementationLeg_eq (project : Projects.Project)
    (plan : Projects.PaymentPlan)
    (htype : plan.type = Projects.PaymentPlanType.FEE_UNICO ∨
      plan.type = Projects.PaymentPlanType.FEE_POR_CUOTAS ∨
      plan.type = Projects.PaymentPlanType.MIXTO)
    (htotal : truthyQ plan.implementation_fee_total = true) :
    implementationLeg project plan =
      (List.range
          (max 1 (pyOrNat plan.implementation_fee_installments 1))).map
        (fun i =>
          { project_id := project.id
            client_id := project.client_id
            amount := round2 (plan.implementation_fee_total.getD 0 /
              ((max 1 (pyOrNat plan.implementation_fee_installments 1) : ℕ) :
                ℚ))
            currency := plan.implementation_fee_currency
            date := project.start_date.addMonths i
            status := .PENDIENTE
            type := .IMPLEMENTACION
            installment_number := i + 1 }) := by
  unfold implementationLeg
  rw [if_pos ⟨htype, htotal⟩]

theorem recurringInterval_of_freq (plan : Projects.PaymentPlan)
    (f : Projects.FrequencyType)
    (hfreq : plan.recurring_fee_frequency = some f) :
    recurringInterval plan = frequency_months f := by
  unfold recurringInterval
  rw [hfreq]

theorem recurringLeg_eq (project : Projects.Project)
    (plan : Projects.PaymentPlan) (months : ℕ)
    (f : Projects.FrequencyType)
    (htype : plan.type = Projects.PaymentPlanType.SUSCRIPCION_PERIODICA ∨
      plan.type = Projects.PaymentPlanType.MIXTO)
    (hamt : truthyQ plan.recurring_fee_amount = true)
    (hfreq : plan.recurring_fee_frequency = some f) :
    recurringLeg project plan months =
      (List.range (intFloor ((months : ℚ) / frequency_months f))).map
        (fun i =>
          { project_id := project.id
            client_id := project.client_id
            amount := round2 (recurringAmount plan i)
            currency := plan.recurring_fee_currency
            date := (recurringStart project plan).addMonths
              (intFloor ((i : ℚ) * frequency_months f))
            status := .PENDIENTE
            type := .RECURRENTE
            installment_number := i + 1 }) := by
  unfold recurringLeg
  rw [if_pos ⟨htype, hamt, by simp [hfreq]⟩]
  simp only [recurringInterval_of_freq plan f hfreq]

/-- The Python discount guard
(`discount_periods and i < discount_periods`) coincides with the bare
comparison against the defaulted discount count. -/
theorem recurringAmount_eq (plan : Projects.PaymentPlan) (i : ℕ) :
    recurringAmount plan i =
      if i < plan.recurring_fee_discount_periods.getD 0 then
        plan.recurring_fee_amount.getD 0 *
          (1 - plan.recurring_fee_discount_percentage.getD 0 / 100)
      else plan.recurring_fee_amount.getD 0 := by
  unfold recurringAmount
  rcases hdp : plan.recurring_fee_discount_periods with - | n
  · simp [truthyNat, hdp]
  · rcases Nat.eq_zero_or_pos n with rfl | hn
    · simp [truthyNat, hdp]
    · have hne : n ≠ 0 := by omega
      simp [truthyNat, hdp, hne]

end Payments

namespace Reports

/-! ### Projection-fold helper lemmas -/

theorem projFold_append (l : List MonthBucket) :
    ∀ (b0 : ℚ) (out : List (MonthBucket × ℚ)),
      l.foldl (fun st b => (st.1 + b.net, st.2 ++ [(b, st.1 + b.net)]))
          (b0, out) =
        ((l.foldl (fun st b => (st.1 + b.net, st.2 ++ [(b, st.1 + b.net)]))
            (b0, [])).1,
          out ++
            (l.foldl
              (fun st b => (st.1 + b.net, st.2 ++ [(b, st.1 + b.net)]))
              (b0, [])).2) := by
  induction l with
  | nil => intro b0 out; simp
  | cons b t ih =>
    intro b0 out
    simp only [List.foldl_cons]
    rw [ih (b0 + b.net) (out ++ [(b, b0 + b.net)]),
      ih (b0 + b.net) ([] ++ [(b, b0 + b.net)])]
    simp

theorem projFold_fst (l : List MonthBucket) :
    ∀ (b0 : ℚ) (out : List (MonthBucket × ℚ)),
      (l.foldl (fun st b => (st.1 + b.net, st.2 ++ [(b, st.1 + b.net)]))
          (b0, out)).1 = b0 + (l.map MonthBucket.net).sum := by
  induction l with
  | nil => intro b0 out; simp
  | cons b t ih =>
    intro b0 out
    simp only [List.foldl_cons, List.map_cons, List.sum_cons]
    rw [ih]
    ring

theorem projFold_snd_length (l : List MonthBucket) :
    ∀ (b0 : ℚ),
      ((l.foldl (fun st b => (st.1 + b.net, st.2 ++ [(b, st.1 + b.net)]))
          (b0, [])).2).length = l.length := by
  induction l with
  | nil => intro b0; rfl
  | cons b t ih =>
    intro b0
    simp only [List.foldl_cons]
    rw [projFold_append t (b0 + b.net) ([] ++ [(b, b0 + b.net)])]
    simp [ih]

theorem projFold_snd_getElem (l : List MonthBucket) :
    ∀ (b0 : ℚ) (K : ℕ), K < l.length →
      (((l.foldl (fun st b => (st.1 + b.net, st.2 ++ [(b, st.1 + b.net)]))
          (b0, [])).2).map Prod.snd)[K]? =
        some (b0 + ((l.take (K + 1)).map MonthBucket.net).sum) := by
  induction l with
  | nil =>
    intro b0 K hK
    simp at hK
  | cons b t ih =>
    intro b0 K hK
    simp only [List.foldl_cons]
    rw [projFold_append t (b0 + b.net) ([] ++ [(b, b0 + b.net)])]
    simp only [List.nil_append, List.singleton_append, List.map_cons]
    cases K with
    | zero => simp
    | succ K =>
      simp only [List.getElem?_cons_succ]
      rw [ih (b0 + b.net) K (by simpa using hK)]
      simp only [List.take_succ_cons, List.map_cons, List.sum_cons,
        Option.some.injEq]
      ring

end Reports

/-! ### Claim theorems -/

/-- C1 (counterexample): an active obligation whose monthly cursor lies two
years in the past, generated with horizon 3 as of 2024-01-15, produces 0
instances, not the 3 the claim asserts: each skipped past-dated step
consumes one of the `range(months)` iterations. -/
theorem generate_past_cursor_counterexample :
    (Expenses.generate Samples.pastCursorObligation 3
        Samples.scenarioToday).instances.length = 0 ∧
    (Expenses.generate Samples.pastCursorObligation 3
        Samples.scenarioToday).instances.length ≠ 3 := by
  constructor <;> decide

/-- C1 (amended): the generate operation always terminates and runs exactly
`months` loop iterations; every past-dated step is skipped without creating
an instance but consumes an iteration, so at most `months` instances are
produced, each dated today or later, with exactly `months` instances when
the cursor is not in the past. -/
theorem generate_past_cursor_bounds (re : Expenses.RecurringExpense)
    (months : ℕ) (today : Date) :
    (Expenses.generate re months today).instances.length ≤ months ∧
    (∀ e ∈ (Expenses.generate re months today).instances,
      ¬ Date.Lt e.due_date today) ∧
    (re.status = Expenses.RecurringExpenseStatus.ACTIVO →
      ¬ Date.Lt re.next_payment today →
      (Expenses.generate re months today).instances.length = months) := by
  by_cases hact : re.status = Expenses.RecurringExpenseStatus.ACTIVO
  · rw [Expenses.generate_instances_eq re months today hact]
    refine ⟨?_, ?_, fun _ hcur => ?_⟩
    · exact Expenses.generateLoop_length_le re _ today months 0 re.next_payment
    · exact fun e he =>
        Expenses.generateLoop_mem_not_past re _ today months 0
          re.next_payment e he
    · exact Expenses.generateLoop_length_eq re _ today
        (Expenses.le_stepDate re.frequency) months 0 re.next_payment hcur
  · rw [Expenses.generate_not_active re months today hact]
    exact ⟨by simp, by simp, fun h => absurd h hact⟩

/-- C1 (witness for the amended theorem): an active monthly obligation with
cursor 2024-02-01 generated with horizon 3 as of 2024-01-15 yields exactly
3 instances. -/
theorem generate_past_cursor_bounds_witness :
    (Expenses.generate Samples.futureCursorObligation 3
        Samples.scenarioToday).instances.length = 3 :=
  (generate_past_cursor_bounds Samples.futureCursorObligation 3
      Samples.scenarioToday).2.2 (by decide) (by decide)

/-- C2 (counterexample): in the end-to-end scenario (monthly obligation,
cursor 2024-01-01, horizon 3, today 2024-01-15) the code generates only 2
instances — the `i == 0` iteration is consumed skipping January — and the
cursor stays at 2024-01-01, not 2024-02-01, because `next_payment_date` is
assigned only on a creating `i == 0` iteration. -/
theorem generate_e2e_scenario_counterexample :
    (Expenses.generate Samples.e2eObligation 3
        Samples.scenarioToday).instances.length ≠ 3 ∧
    (Expenses.generate Samples.e2eObligation 3
        Samples.scenarioToday).obligation.next_payment ≠ ⟨2024, 2, 1⟩ := by
  constructor <;> decide

/-- C2 (amended): a generate call never changes the obligation's cursor:
`next_payment_date` is only recorded when the very first loop iteration
creates an instance, and then it equals the pre-call cursor.  In the
end-to-end scenario the call generates 2 instances dated 2024-02-01 and
2024-03-01 and leaves the cursor at 2024-01-01. -/
theorem generate_never_advances_cursor :
    (∀ (re : Expenses.RecurringExpense) (months : ℕ) (today : Date),
      (Expenses.generate re months today).obligation.next_payment =
        re.next_payment) ∧
    (Expenses.generate Samples.e2eObligation 3
        Samples.scenarioToday).instances.map (fun e => e.due_date) =
      [⟨2024, 2, 1⟩, ⟨2024, 3, 1⟩] ∧
    (Expenses.generate Samples.e2eObligation 3
        Samples.scenarioToday).obligation.next_payment = ⟨2024, 1, 1⟩ :=
  ⟨Expenses.generate_next_payment_eq, by decide, by decide⟩

/-- C3 (counterexample): the update endpoint assigns any supplied model
attribute unvalidated, so a PUT body carrying `next_payment = 2023-01-01`
moves the cursor strictly before `start_date` and strictly before its
previous value. -/
theorem update_cursor_regression_counterexample :
    Date.Lt
      (Expenses.updateRecurringExpense Samples.e2eObligation
          Samples.cursorRegressionUpdate).next_payment
      (Expenses.updateRecurringExpense Samples.e2eObligation
          Samples.cursorRegressionUpdate).start_date ∧
    Date.Lt
      (Expenses.updateRecurringExpense Samples.e2eObligation
          Samples.cursorRegressionUpdate).next_payment
      Samples.e2eObligation.next_payment := by
  constructor <;> decide

/-- C3 (amended): `next_payment >= start_date` holds after create (which
sets the cursor equal to the start date) and after generate (which changes
neither the cursor nor the start date, so the cursor never regresses
there); the update endpoint, however, writes any supplied attribute
unchecked and can break the invariant (see the counterexample). -/
theorem next_payment_invariant_create_generate :
    (∀ (today : Date) (d : Expenses.RecurringExpenseCreate) (id : ℕ)
        (re : Expenses.RecurringExpense),
      Expenses.createRecurringExpense today d id = some re →
        re.next_payment = re.start_date) ∧
    (∀ (re : Expenses.RecurringExpense) (months : ℕ) (today : Date),
      (Expenses.generate re months today).obligation.next_payment =
          re.next_payment ∧
        (Expenses.generate re months today).obligation.start_date =
          re.start_date) := by
  constructor
  · intro today d id re h
    unfold Expenses.createRecurringExpense at h
    split at h
    · cases h
    · split at h
      · cases h
      · split at h
        · cases h
        · cases h; rfl
  · exact fun re months today =>
      ⟨Expenses.generate_next_payment_eq re months today,
        Expenses.generate_start_date_eq re months today⟩

/-- C3 (witness for the amended theorem): the concrete creation payload
produces a row whose cursor equals its start date. -/
theorem next_payment_invariant_create_generate_witness :
    Samples.createdObligation.next_payment =
      Samples.createdObligation.start_date :=
  next_payment_invariant_create_generate.1 Samples.scenarioToday
    Samples.sampleCreate 9 Samples.createdObligation (by decide)

/-- C5: generating from an obligation whose status is not active always
returns HTTP 400, creates zero instances and leaves the obligation —
cursor included — unchanged. -/
theorem generate_inactive_rejected (re : Expenses.RecurringExpense)
    (months : ℕ) (today : Date)
    (h : re.status ≠ Expenses.RecurringExpenseStatus.ACTIVO) :
    (Expenses.generate re months today).httpStatus = 400 ∧
    (Expenses.generate re months today).instances = [] ∧
    (Expenses.generate re months today).obligation = re := by
  rw [Expenses.generate_not_active re months today h]
  exact ⟨rfl, rfl, rfl⟩

/-- C8: currency conversion is the identity whenever the two currency codes
coincide — for every amount, zero and negative included, and independently
of the exchange-rate source — and multiplies by
`get_exchange_rate(from, to)` whenever they differ. -/
theorem convert_currency_identity_and_rate
    (apiRate : String → String → Option ℚ) (amount : ℚ)
    (from_currency to_currency : String) :
    (from_currency = to_currency →
      Currencies.convert_currency apiRate amount from_currency to_currency =
        amount) ∧
    (from_currency ≠ to_currency →
      Currencies.convert_currency apiRate amount from_currency to_currency =
        amount *
          Currencies.get_exchange_rate apiRate from_currency to_currency) := by
  constructor <;> intro h <;> simp [Currencies.convert_currency, h]

/-- C8 (witness): identity on a negative amount and on zero, and the
multiplicative form on distinct currencies, with the API unavailable. -/
theorem convert_currency_identity_and_rate_witness :
    Currencies.convert_currency (fun _ _ => none) (-5) "USD" "USD" = -5 ∧
    Currencies.convert_currency (fun _ _ => none) 0 "COP" "COP" = 0 ∧
    Currencies.convert_currency (fun _ _ => none) 10 "USD" "COP" =
      10 * Currencies.get_exchange_rate (fun _ _ => none) "USD" "COP" :=
  ⟨(convert_currency_identity_and_rate (fun _ _ => none) (-5) "USD"
      "USD").1 rfl,
    (convert_currency_identity_and_rate (fun _ _ => none) 0 "COP" "COP").1
      rfl,
    (convert_currency_identity_and_rate (fun _ _ => none) 10 "USD" "COP").2
      (by decide)⟩

/-- C4 (counterexample): a fee-in-installments plan with
`implementation_fee_total` missing is not rejected: generation returns 201
(having silently skipped the implementation leg and persisted nothing),
not the 400 validation failure the claim asserts. -/
theorem generate_payments_missing_total_counterexample :
    (Payments.generatePayments Samples.missingTotalProject 12).httpStatus =
        201 ∧
    (Payments.generatePayments Samples.missingTotalProject 12).httpStatus ≠
        400 ∧
    (Payments.generatePayments Samples.missingTotalProject 12).payments =
      [] := by
  refine ⟨by decide, by decide, by decide⟩

/-- C4 (amended): payment generation performs no plan-type-dependent field
validation.  With a payment plan present, the call succeeds with 201
whenever no generated row is missing its currency; a falsy
`implementation_fee_total` silently skips the implementation leg, a falsy
`recurring_fee_amount` or absent `recurring_fee_frequency` silently skips
the recurring leg; only a commit-time NOT NULL failure (missing currency on
a generated row) or a missing payment plan yields 400, and then nothing is
persisted. -/
theorem generate_payments_no_field_validation
    (project : Projects.Project) (plan : Projects.PaymentPlan) (months : ℕ)
    (hplan : project.payment_plan = some plan) :
    ((Payments.implementationLeg project plan ++
          Payments.recurringLeg project plan months).any
        (fun p => p.currency.isNone) = false →
      (Payments.generatePayments project months).httpStatus = 201) ∧
    (truthyQ plan.implementation_fee_total = false →
      Payments.implementationLeg project plan = []) ∧
    (truthyQ plan.recurring_fee_amount = false ∨
        plan.recurring_fee_frequency = none →
      Payments.recurringLeg project plan months = []) ∧
    ((Payments.generatePayments project months).httpStatus = 400 →
      (Payments.generatePayments project months).payments = []) := by
  refine ⟨?_, ?_, ?_, ?_⟩
  · intro hall
    rw [Payments.generatePayments_of_plan project plan months hplan hall]
  · intro hfalse
    unfold Payments.implementationLeg
    rw [if_neg]
    rintro ⟨-, hb⟩
    rw [hfalse] at hb
    cases hb
  · intro hor
    unfold Payments.recurringLeg
    rw [if_neg]
    rintro ⟨-, hamt, hfreq⟩
    rcases hor with h | h
    · rw [h] at hamt
      cases hamt
    · rw [h] at hfreq
      cases hfreq
  · intro h400
    by_cases hc : (Payments.implementationLeg project plan ++
        Payments.recurringLeg project plan months).any
          (fun p => p.currency.isNone) = true
    · rw [Payments.generatePayments_of_plan_fail project plan months hplan hc]
    · rw [Payments.generatePayments_of_plan project plan months hplan
        (by simpa using hc)] at h400
      cases h400

/-- C4 (witness for the amended theorem): the plan missing its
implementation fee total generates with status 201 and an empty
implementation leg. -/
theorem generate_payments_no_field_validation_witness :
    (Payments.generatePayments Samples.missingTotalProject 12).httpStatus =
        201 ∧
    Payments.implementationLeg Samples.missingTotalProject
        Samples.missingTotalPlan = [] :=
  ⟨(generate_payments_no_field_validation Samples.missingTotalProject
      Samples.missingTotalPlan 12 rfl).1 (by decide),
    (generate_payments_no_field_validation Samples.missingTotalProject
      Samples.missingTotalPlan 12 rfl).2.1 (by decide)⟩

/-- C6: when the plan type includes an implementation fee and a truthy
total is configured, generation creates exactly
`max(1, installments or 1)` implementation payments — which equals
`max(1, c)` for a configured count `c` — each of amount
`round(total / installments, 2)`, the `i`-th dated
`project.start_date + i` calendar months with installment number `i + 1`;
the implementation payments of the endpoint result are exactly this
leg. -/
theorem implementation_fee_schedule (project : Projects.Project)
    (plan : Projects.PaymentPlan) (months : ℕ)
    (hplan : project.payment_plan = some plan)
    (htype : plan.type = Projects.PaymentPlanType.FEE_UNICO ∨
      plan.type = Projects.PaymentPlanType.FEE_POR_CUOTAS ∨
      plan.type = Projects.PaymentPlanType.MIXTO)
    (htotal : truthyQ plan.implementation_fee_total = true)
    (h201 : (Payments.generatePayments project months).httpStatus = 201) :
    ((Payments.generatePayments project months).payments.filter
        (fun p => decide (p.type = Payments.PaymentType.IMPLEMENTACION)) =
      Payments.implementationLeg project plan) ∧
    (Payments.implementationLeg project plan).length =
      max 1 (pyOrNat plan.implementation_fee_installments 1) ∧
    (∀ c : ℕ, plan.implementation_fee_installments = some c →
      max 1 (pyOrNat plan.implementation_fee_installments 1) = max 1 c) ∧
    ∀ (i : ℕ) (hi : i < (Payments.implementationLeg project plan).length),
      ((Payments.implementationLeg project plan)[i]).amount =
          round2 (plan.implementation_fee_total.getD 0 /
            ((max 1 (pyOrNat plan.implementation_fee_installments 1) : ℕ) :
              ℚ)) ∧
        ((Payments.implementationLeg project plan)[i]).date =
          project.start_date.addMonths i ∧
        ((Payments.implementationLeg project plan)[i]).installment_number =
          i + 1 := by
  have hany : (Payments.implementationLeg project plan ++
      Payments.recurringLeg project plan months).any
        (fun p => p.currency.isNone) = false := by
    by_cases hc : (Payments.implementationLeg project plan ++
        Payments.recurringLeg project plan months).any
          (fun p => p.currency.isNone) = true
    · rw [Payments.generatePayments_of_plan_fail project plan months hplan
        hc] at h201
      cases h201
    · simpa using hc
  refine ⟨?_, ?_, ?_, ?_⟩
  · rw [Payments.generatePayments_of_plan project plan months hplan hany]
    simp only [List.filter_append]
    rw [List.filter_eq_self.mpr, List.filter_eq_nil_iff.mpr, List.append_nil]
    · intro p hp
      simp [Payments.recurringLeg_type project plan months p hp]
    · intro p hp
      simp [Payments.implementationLeg_type project plan p hp]
  · rw [Payments.implementationLeg_eq project plan htype htotal]
    simp
  · intro c hc
    rw [hc]
    show max 1 (if c = 0 then 1 else c) = max 1 c
    rcases Nat.eq_zero_or_pos c with rfl | hpos
    · decide
    · rw [if_neg (by omega)]
  · intro i hi
    rw [Payments.implementationLeg_eq project plan htype htotal] at hi
    simp only [List.length_map, List.length_range] at hi
    simp [Payments.implementationLeg_eq project plan htype htotal,
      List.getElem_map, List.getElem_range]

unseal Rat.add Rat.sub Rat.mul Rat.inv in
/-- C6 (witness): total 1200 in 3 installments yields three payments of
400.00 each, and total 1200 in a single installment yields one payment of
1200 dated at the project start. -/
theorem implementation_fee_schedule_witness :
    (Payments.implementationLeg Samples.installmentsProject
        Samples.installmentsPlan).length =
      max 1 (pyOrNat
        Samples.installmentsPlan.implementation_fee_installments 1) ∧
    (Payments.implementationLeg Samples.installmentsProject
        Samples.installmentsPlan).map (fun p => p.amount) =
      [400, 400, 400] ∧
    (Payments.implementationLeg Samples.oneTimeProject
        Samples.oneTimePlan).map (fun p => p.amount) = [1200] ∧
    (Payments.implementationLeg Samples.oneTimeProject
        Samples.oneTimePlan).map (fun p => p.date) = [⟨2024, 1, 10⟩] :=
  ⟨(implementation_fee_schedule Samples.installmentsProject
      Samples.installmentsPlan 12 rfl (by decide) (by decide)
      (by decide)).2.1,
    by decide, by decide, by decide⟩

/-- C7: recurring-fee generation prices occurrence `i` at
`round(fee * (1 - discount/100), 2)` while `i < discount_periods` and at
`round(fee, 2)` afterwards, and dates it `floor(i * interval)` months
after the computed start. -/
theorem recurring_fee_schedule (project : Projects.Project)
    (plan : Projects.PaymentPlan) (months : ℕ)
    (f : Projects.FrequencyType)
    (htype : plan.type = Projects.PaymentPlanType.SUSCRIPCION_PERIODICA ∨
      plan.type = Projects.PaymentPlanType.MIXTO)
    (hamt : truthyQ plan.recurring_fee_amount = true)
    (hfreq : plan.recurring_fee_frequency = some f) :
    (Payments.recurringLeg project plan months).length =
      intFloor ((months : ℚ) / Payments.frequency_months f) ∧
    ∀ (i : ℕ) (hi : i < (Payments.recurringLeg project plan months).length),
      ((Payments.recurringLeg project plan months)[i]).amount =
          (if i < plan.recurring_fee_discount_periods.getD 0 then
            round2 (plan.recurring_fee_amount.getD 0 *
              (1 - plan.recurring_fee_discount_percentage.getD 0 / 100))
          else round2 (plan.recurring_fee_amount.getD 0)) ∧
        ((Payments.recurringLeg project plan months)[i]).date =
          (Payments.recurringStart project plan).addMonths
            (intFloor ((i : ℚ) * Payments.frequency_months f)) ∧
        ((Payments.recurringLeg project plan months)[i]).installment_number =
          i + 1 := by
  constructor
  · rw [Payments.recurringLeg_eq project plan months f htype hamt hfreq]
    simp
  · intro i hi
    rw [Payments.recurringLeg_eq project plan months f htype hamt hfreq]
      at hi
    simp only [List.length_map, List.length_range] at hi
    simp only [Payments.recurringLeg_eq project plan months f htype hamt
      hfreq, List.getElem_map, List.getElem_range]
    refine ⟨?_, by trivial, by trivial⟩
    rw [Payments.recurringAmount_eq, apply_ite round2]

unseal Rat.add Rat.sub Rat.mul Rat.inv in
/-- C7 (witness): fee 500, two discount periods at 10%, monthly, horizon 4
months: four payments at 450.00, 450.00, 500.00, 500.00, and the length
matches `floor(months / interval)`. -/
theorem recurring_fee_schedule_witness :
    (Payments.recurringLeg Samples.subscriptionProject
        Samples.subscriptionPlan 4).length =
      intFloor ((4 : ℚ) / Payments.frequency_months
        Projects.FrequencyType.MENSUAL) ∧
    (Payments.recurringLeg Samples.subscriptionProject
        Samples.subscriptionPlan 4).map (fun p => p.amount) =
      [450, 450, 500, 500] :=
  ⟨(recurring_fee_schedule Samples.subscriptionProject
      Samples.subscriptionPlan 4 Projects.FrequencyType.MENSUAL
      (by decide) (by decide) (by decide)).1,
    by decide⟩

/-- C9: in the financial projection, the running balance reported after the
K-th bucket (buckets taken in chronological label order) equals the sum of
the net values of buckets 1..K, and the summary's `final_balance` equals
the running balance after the last bucket. -/
theorem running_balance_prefix_sums (l : List Reports.MonthBucket) :
    ((Reports.projection_data l).length =
      (Reports.sortBuckets l).length) ∧
    (∀ K : ℕ, K < (Reports.projection_data l).length →
      ((Reports.projection_data l).map Prod.snd)[K]? =
        some ((((Reports.sortBuckets l).take (K + 1)).map
          Reports.MonthBucket.net).sum)) ∧
    Reports.final_balance l =
      ((Reports.sortBuckets l).map Reports.MonthBucket.net).sum ∧
    (∀ p : Reports.MonthBucket × ℚ,
      (Reports.projection_data l).getLast? = some p →
        p.2 = Reports.final_balance l) := by
  have hlen : (Reports.projection_data l).length =
      (Reports.sortBuckets l).length := by
    unfold Reports.projection_data Reports.projectionFold
    exact Reports.projFold_snd_length (Reports.sortBuckets l) 0
  have hK : ∀ K : ℕ, K < (Reports.projection_data l).length →
      ((Reports.projection_data l).map Prod.snd)[K]? =
        some ((((Reports.sortBuckets l).take (K + 1)).map
          Reports.MonthBucket.net).sum) := by
    intro K hKlt
    rw [hlen] at hKlt
    have h := Reports.projFold_snd_getElem (Reports.sortBuckets l) 0 K hKlt
    rw [zero_add] at h
    unfold Reports.projection_data Reports.projectionFold
    exact h
  have hfin : Reports.final_balance l =
      ((Reports.sortBuckets l).map Reports.MonthBucket.net).sum := by
    unfold Reports.final_balance Reports.projectionFold
    rw [Reports.projFold_fst (Reports.sortBuckets l) 0 [], zero_add]
  refine ⟨hlen, hK, hfin, ?_⟩
  intro p hp
  rw [List.getLast?_eq_getElem?] at hp
  have hpos : 0 < (Reports.projection_data l).length := by
    rcases Nat.eq_zero_or_pos (Reports.projection_data l).length with hz | h
    · rw [List.getElem?_eq_none (by omega)] at hp
      cases hp
    · exact h
  have h2 := hK ((Reports.projection_data l).length - 1) (by omega)
  rw [List.getElem?_map, hp] at h2
  have hp2 : p.2 = (((Reports.sortBuckets l).take
      ((Reports.projection_data l).length - 1 + 1)).map
        Reports.MonthBucket.net).sum := by
    simpa using h2
  have hn : (Reports.projection_data l).length - 1 + 1 =
      (Reports.sortBuckets l).length := by
    rw [← hlen]
    omega
  rw [hp2, hfin, hn, List.take_length]

unseal Rat.add Rat.sub Rat.mul Rat.inv in
/-- C9 (witness): for the two out-of-order buckets ("2024-02", 10) and
("2024-01", 5) the last reported row carries balance 15, which is the
summary's final balance. -/
theorem running_balance_prefix_sums_witness :
    ((⟨"2024-02", 10⟩, 15) : Reports.MonthBucket × ℚ).2 =
      Reports.final_balance Samples.sampleBuckets :=
  (running_balance_prefix_sums Samples.sampleBuckets).2.2.2
    (⟨"2024-02", 10⟩, 15) (by decide)

/-- C10: the overdue listing endpoint commits a side effect: every pending
record whose due date is strictly past has exactly its status changed to
`VENCIDO` (all other columns and all other records unchanged), and the
response consists exactly of the records that were pending and past-due at
call time. -/
theorem overdue_endpoint_frame (database : List Expenses.AccruedExpense)
    (today : Date) :
    ((Expenses.overdueAccruedExpenses database today).1.length =
      database.length) ∧
    (∀ i : ℕ, (Expenses.overdueAccruedExpenses database today).1[i]? =
      (database[i]?).map (fun e =>
        if Expenses.isOverduePending today e then Expenses.markVencido e
        else e)) ∧
    (∀ e : Expenses.AccruedExpense,
      Expenses.fieldsExceptStatus (Expenses.markVencido e) =
        Expenses.fieldsExceptStatus e) ∧
    (∀ e ∈ (Expenses.overdueAccruedExpenses database today).2,
      e.status = Expenses.AccruedExpenseStatus.VENCIDO) ∧
    ((Expenses.overdueAccruedExpenses database today).2.map
        Expenses.fieldsExceptStatus).Perm
      ((database.filter (Expenses.isOverduePending today)).map
        Expenses.fieldsExceptStatus) := by
  have h2 : (Expenses.overdueAccruedExpenses database today).2 =
      (List.insertionSort (fun a b => Date.Le a.due_date b.due_date)
        (database.filter (Expenses.isOverduePending today))).map
        Expenses.markVencido := rfl
  refine ⟨?_, ?_, ?_, ?_, ?_⟩
  · simp [Expenses.overdueAccruedExpenses]
  · intro i
    simp [Expenses.overdueAccruedExpenses, List.getElem?_map]
  · intro e
    rfl
  · intro e he
    rw [h2] at he
    rcases List.mem_map.mp he with ⟨x, -, rfl⟩
    rfl
  · rw [h2, List.map_map]
    have hcomp : (Expenses.fieldsExceptStatus ∘ Expenses.markVencido) =
        Expenses.fieldsExceptStatus := funext fun e => rfl
    rw [hcomp]
    exact (List.perm_insertionSort _ _).map _

/-- C10 (witness): on the three-record sample table, the pending past-due
record is returned with status set to overdue, and the pending future
record is left untouched. -/
theorem overdue_endpoint_frame_witness :
    (Expenses.overdueAccruedExpenses Samples.overdueDb
        Samples.scenarioToday).1[0]? =
      some (Expenses.markVencido (Samples.overdueDb.get ⟨0, by decide⟩)) ∧
    (Expenses.overdueAccruedExpenses Samples.overdueDb
        Samples.scenarioToday).1[1]? =
      some (Samples.overdueDb.get ⟨1, by decide⟩) ∧
    (Expenses.markVencido (Samples.overdueDb.get ⟨0, by decide⟩)).status =
      Expenses.AccruedExpenseStatus.VENCIDO := by
  refine ⟨?_, ?_, ?_⟩
  · have h := (overdue_endpoint_frame Samples.overdueDb
      Samples.scenarioToday).2.1 0
    rw [h]
    decide
  · have h := (overdue_endpoint_frame Samples.overdueDb
      Samples.scenarioToday).2.1 1
    rw [h]
    decide
  · exact (overdue_endpoint_frame Samples.overdueDb
      Samples.scenarioToday).2.2.2.1
      (Expenses.markVencido (Samples.overdueDb.get ⟨0, by decide⟩))
      (by decide)

/-- C5 (witness): the paused sample obligation is rejected with 400 and no
instances. -/
theorem generate_inactive_rejected_witness :
    (Expenses.generate Samples.pausedObligation 3
        Samples.scenarioToday).httpStatus = 400 ∧
    (Expenses.generate Samples.pausedObligation 3
        Samples.scenarioToday).instances = [] ∧
    (Expenses.generate Samples.pausedObligation 3
        Samples.scenarioToday).obligation = Samples.pausedObligation :=
  generate_inactive_rejected Samples.pausedObligation 3
    Samples.scenarioToday (by decide)

end ERP
